import Mathlib

/-!
# Bejeweled PvP client: state synchronisation, drop-in animation and input

A shallow embedding of `src/client.c` and of the allocator of `src/arena.c`.  The process-wide variables of the C
program become the fields of one record, `Client`, and every C function becomes
a function from `Client` to `Client`.  The two nested `for` loops over the
8 x 8 board are kept as loops (`forCells`), because `update_animation` mutates
the shared `animation_timer` inside the loop body.

Conventions
* `float` values are exact rationals.
* The `Vector2` variables that hold board coordinates (`selected_tile`,
  `hover_tile`, `swap_from`, `swap_to`) only ever receive `-1` or an `int`
  (`hoverX`, `hoverY`), so their components are integers; the pointer position
  is a `Vector2` of rationals.
* `sendto` either succeeds, which appends the datagram to `sent`, or fails, in
  which case `die` ends the process: functions that call it return `Option`.
* `printf` appends to `stdout`.
* `size_t` values of `src/arena.c` are natural numbers, added modulo `2 ^ 64`.
-/

namespace Bejeweled

/-! ## Data model -/

/-- The `Tile` enumeration; `EMPTY` is the zero value. -/
inductive Tile where
  | EMPTY
  | T_RED
  | T_BLUE
  | T_GREEN
  | T_YELLOW
  | T_PURPLE
  | T_SPECIAL
  deriving DecidableEq, Repr

/-- `#define BOARD_SIZE 8`. -/
abbrev BOARD_SIZE : Nat := 8

/-- `#define TILE_SIZE 60`, used in `float` arithmetic only. -/
def TILE_SIZE : ℚ := 60

/-- `#define ANIMATION_DURATION 0.05f`. -/
def ANIMATION_DURATION : ℚ := 1 / 20

/-- `const float SWAP_ANIMATION_DURATION = 0.05f`. -/
def SWAP_ANIMATION_DURATION : ℚ := 1 / 20

/-- An 8 x 8 C array `T a[BOARD_SIZE][BOARD_SIZE]`, indexed `a[y][x]`. -/
abbrev Grid (α : Type) : Type := Fin BOARD_SIZE → Fin BOARD_SIZE → α

/-- The assignment `a[y][x] = v`. -/
def setCell {α : Type} (a : Grid α) (y x : Fin BOARD_SIZE) (v : α) : Grid α :=
  fun y' x' => if y' = y ∧ x' = x then v else a y' x'

/-- The record `struct GameState`. -/
structure GameState where
  game_id : Int
  board : Grid Tile
  current_turn : Int
  player1_score : Int
  player2_score : Int
  game_started : Bool
  game_over : Bool

/-- The value `memset(&g, 0, sizeof(struct GameState))` leaves in `g`. -/
def GameState.zero : GameState where
  game_id := 0
  board := fun _ _ => Tile.EMPTY
  current_turn := 0
  player1_score := 0
  player2_score := 0
  game_started := false
  game_over := false

/-- The `GameScreen` enumeration. -/
inductive GameScreen where
  | MAIN_MENU
  | IN_GAME
  deriving DecidableEq, Repr

/-- The raylib pair `Vector2`, over the type of its components. -/
structure Vector2 (α : Type) where
  x : α
  y : α
  deriving DecidableEq, Repr

/-- The literal `(Vector2){ -1, -1 }`: no cell. -/
def Vector2.unset : Vector2 Int := ⟨-1, -1⟩

/-- The global variables of `client.c`, with the datagrams sent and the lines
printed so far. -/
structure Client where
  player_id : Int
  connected : Bool
  game_state : GameState
  previous_board : GameState
  current_screen : GameScreen
  selected_tile : Vector2 Int
  hover_tile : Vector2 Int
  tile_offsets : Grid ℚ
  animating : Bool
  animation_timer : ℚ
  animating_swap : Bool
  swap_animation_timer : ℚ
  swap_from : Vector2 Int
  swap_to : Vector2 Int
  sent : List String
  stdout : List String

/-- The initial values of the globals, after `main` has zeroed `previous_board`. -/
def Client.init : Client where
  player_id := -1
  connected := false
  game_state := GameState.zero
  previous_board := GameState.zero
  current_screen := GameScreen.MAIN_MENU
  selected_tile := Vector2.unset
  hover_tile := Vector2.unset
  tile_offsets := fun _ _ => 0
  animating := false
  animation_timer := 0
  animating_swap := false
  swap_animation_timer := 0
  swap_from := Vector2.unset
  swap_to := Vector2.unset
  sent := []
  stdout := []

/-! ## Loops over the board -/

/-- The loop `for (i = 0; i < BOARD_SIZE; i++) for (j = 0; j < BOARD_SIZE; j++) body`. -/
def forCells {σ : Type} (body : Fin BOARD_SIZE → Fin BOARD_SIZE → σ → σ) (s : σ) : σ :=
  (List.finRange BOARD_SIZE).foldl
    (fun s i => (List.finRange BOARD_SIZE).foldl (fun s j => body i j s) s) s

/-! ## Transport -/

/-- The call `sendto(...)` followed by `die` on failure: `none` is `exit(1)`. -/
def sendto (ok : Bool) (buffer : String) (s : Client) : Option Client :=
  if ok then some { s with sent := s.sent ++ [buffer] } else none

/-- The function `send_disconnect_request`. -/
def send_disconnect_request (ok : Bool) (s : Client) : Option Client :=
  (sendto ok "DISCONNECT" s).map fun s =>
    { s with connected := false, player_id := -1, current_screen := GameScreen.MAIN_MENU }

/-- The text `snprintf(buffer, BUFLEN, "%d %d %d %d %d", ...)` writes in
`send_move`. -/
def move_text (player_id fromX fromY toX toY : Int) : String :=
  toString player_id ++ " " ++ toString fromX ++ " " ++ toString fromY ++ " " ++
    toString toX ++ " " ++ toString toY

/-- The function `send_move`. -/
def send_move (ok : Bool) (fromX fromY toX toY : Int) (s : Client) : Option Client :=
  sendto ok (move_text s.player_id fromX fromY toX toY) s

/-- The function `reset_game_state`. -/
def reset_game_state (s : Client) : Client :=
  { s with
    connected := false
    player_id := -1
    game_state := GameState.zero
    current_screen := GameScreen.MAIN_MENU }

/-! ## Animation -/

/-- The body of the loop of `update_animation` at cell `[y][x]`; the second
component is the local `any_animating`. -/
def update_animation_cell (delta_time : ℚ) (y x : Fin BOARD_SIZE) (c : Client × Bool) :
    Client × Bool :=
  if c.1.tile_offsets y x ≠ 0 then
    let s := c.1
    let progress := s.animation_timer / ANIMATION_DURATION
    let progress := if progress > 1 then 1 else progress
    let eased_progress := 1 - (1 - progress) * (1 - progress)
    let s := { s with
      tile_offsets := setCell s.tile_offsets y x (-TILE_SIZE + eased_progress * TILE_SIZE) }
    let s := { s with animation_timer := s.animation_timer + delta_time }
    let s :=
      if s.animation_timer ≥ ANIMATION_DURATION then
        { s with tile_offsets := setCell s.tile_offsets y x 0, animation_timer := 0 }
      else s
    (s, true)
  else c

/-- The swap part of `update_animation`. -/
def update_swap (delta_time : ℚ) (s : Client) : Client :=
  if s.animating_swap then
    let s := { s with swap_animation_timer := s.swap_animation_timer + delta_time }
    if s.swap_animation_timer ≥ SWAP_ANIMATION_DURATION then
      { s with
        animating_swap := false
        swap_animation_timer := 0
        swap_from := Vector2.unset
        swap_to := Vector2.unset }
    else s
  else s

/-- The function `update_animation`. -/
def update_animation (delta_time : ℚ) (s : Client) : Client :=
  let c := forCells (update_animation_cell delta_time) (s, false)
  update_swap delta_time { c.1 with animating := c.2 }

/-- The body of the loop of `start_animation` at cell `[i][j]`. -/
def start_animation_cell (i j : Fin BOARD_SIZE) (s : Client) : Client :=
  if s.game_state.board i j ≠ Tile.EMPTY then
    { s with tile_offsets := setCell s.tile_offsets i j (-TILE_SIZE * ((i.val : ℚ) + 1)) }
  else s

/-- The function `start_animation`. -/
def start_animation (s : Client) : Client :=
  forCells start_animation_cell { s with animating := true, animation_timer := 0 }

/-! ## Receiving -/

/-- What `recvfrom` put in the buffer: text starting with `PLAYER_ID:` (with
the integer `sscanf` read after it, if any), or anything else, read as the
bytes of a `struct GameState`. -/
inductive Datagram where
  | player_id (parsed : Option Int)
  | snapshot (new_state : GameState)

/-- The body of the first loop of the snapshot branch of
`receive_server_message` at cell `[y][x]`. -/
def flag_new_tiles_cell (new_state : GameState) (y x : Fin BOARD_SIZE) (s : Client) : Client :=
  if s.previous_board.board y x = Tile.EMPTY ∧ new_state.board y x ≠ Tile.EMPTY then
    { s with tile_offsets := setCell s.tile_offsets y x (-TILE_SIZE) }
  else s

/-- The first loop of the snapshot branch of `receive_server_message`. -/
def flag_new_tiles (new_state : GameState) (s : Client) : Client :=
  forCells (flag_new_tiles_cell new_state) s

/-- The function `receive_server_message`; `recv = none` is `recv_len == -1`. -/
def receive_server_message (recv : Option Datagram) (s : Client) : Client :=
  match recv with
  | none => s
  | some (Datagram.player_id parsed) =>
    let s := match parsed with
      | some n => { s with player_id := n }
      | none => s
    let s := { s with stdout := s.stdout ++ ["Assigned Player ID: " ++ toString s.player_id] }
    { s with connected := true, current_screen := GameScreen.IN_GAME }
  | some (Datagram.snapshot new_state) =>
    let s := flag_new_tiles new_state s
    let s := start_animation s
    let s := { s with previous_board := s.game_state }
    let s := { s with game_state := new_state }
    if (!s.game_state.game_over && new_state.game_over) = true then
      { s with stdout := s.stdout ++
          ["Game Over! Player 1 Score: " ++ toString new_state.player1_score ++
            ", Player 2 Score: " ++ toString new_state.player2_score] }
    else s

/-- The tile offsets the snapshot branch of `receive_server_message` leaves
behind, cell by cell: `start_animation` runs last and reads the `game_state`
that is still displayed, the first loop reads `previous_board`. -/
def snapshot_offsets (new_state : GameState) (s : Client) : Grid ℚ :=
  fun y x =>
    if s.game_state.board y x ≠ Tile.EMPTY then -TILE_SIZE * ((y.val : ℚ) + 1)
    else if s.previous_board.board y x = Tile.EMPTY ∧ new_state.board y x ≠ Tile.EMPTY then
      -TILE_SIZE
    else s.tile_offsets y x

/-! ## Input -/

/-- The C conversion from `float` to `int`: the fractional part is discarded,
so the value is rounded towards zero. -/
def float_to_int (q : ℚ) : Int :=
  if 0 ≤ q then ⌊q⌋ else ⌈q⌉

/-- The hover computation of `main` (lines 672-680): the value given to
`hover_tile` for the pointer position `mousePoint`. -/
def hover (mousePoint : Vector2 ℚ) : Vector2 Int :=
  let hoverX := float_to_int ((mousePoint.x - 100) / TILE_SIZE)
  let hoverY := float_to_int ((mousePoint.y - 100) / TILE_SIZE)
  if hoverX ≥ 0 ∧ hoverX < BOARD_SIZE ∧ hoverY ≥ 0 ∧ hoverY < BOARD_SIZE then
    ⟨hoverX, hoverY⟩
  else Vector2.unset

/-- The body of `if (IsMouseButtonPressed(MOUSE_LEFT_BUTTON))` in `main`
(lines 683-705). -/
def click (ok : Bool) (s : Client) : Option Client :=
  if s.hover_tile.x ≠ -1 then
    if s.selected_tile.x = -1 then
      some { s with selected_tile := s.hover_tile }
    else if (|s.hover_tile.x - s.selected_tile.x| = 1 ∧ s.hover_tile.y = s.selected_tile.y) ∨
        (|s.hover_tile.y - s.selected_tile.y| = 1 ∧ s.hover_tile.x = s.selected_tile.x) then
      (send_move ok s.selected_tile.x s.selected_tile.y s.hover_tile.x s.hover_tile.y s).map
        fun s =>
          { s with
            animating_swap := true
            swap_animation_timer := 0
            swap_from := s.selected_tile
            swap_to := s.hover_tile
            selected_tile := Vector2.unset }
    else if s.hover_tile.x = s.selected_tile.x ∧ s.hover_tile.y = s.selected_tile.y then
      some { s with selected_tile := Vector2.unset }
    else
      some { s with selected_tile := s.hover_tile }
  else
    some { s with selected_tile := Vector2.unset }

/-- The function `send_connect_request`. -/
def send_connect_request (ok : Bool) (s : Client) : Option Client :=
  sendto ok "CONNECT" s

/-- What the Disconnect button of `main` does when pressed (lines 602-605). -/
def disconnect_button (ok : Bool) (s : Client) : Option Client :=
  (send_disconnect_request ok s).map reset_game_state

/-- The value `draw_button` returns (lines 186-192): the left mouse button was
pressed in this frame while the pointer was over the button; `is_over` is what
raylib's `CheckCollisionPointRec(mousePoint, bounds)` returned. -/
def draw_button (mouse_pressed is_over : Bool) : Bool :=
  mouse_pressed && is_over

/-- Lines 606-718 of `main` without their drawing: the game-over branch with
its space-bar key, the gated hover and click handling, and the opponent branch,
which changes nothing. -/
def turn_input (mousePoint : Vector2 ℚ) (mouse_pressed space_pressed ok : Bool) (s : Client) :
    Option Client :=
  if s.game_state.game_over then
    some (if space_pressed then reset_game_state s else s)
  else if s.game_state.current_turn = s.player_id ∧ ¬ s.animating ∧ ¬ s.animating_swap then
    let s := { s with hover_tile := hover mousePoint }
    if mouse_pressed then click ok s else some s
  else
    some s

/-- The `switch (current_screen)` of one frame of `main` (lines 551-721)
without its drawing.  On the main menu only the Connect button is read.  In
game nothing is read while the client is not connected or the match has not
started; otherwise the Disconnect button is handled first and `turn_input`
runs after it, in the same frame.  `over_connect` and `over_disconnect` say
whether the pointer is over the two buttons. -/
def frame (mousePoint : Vector2 ℚ)
    (mouse_pressed over_connect over_disconnect space_pressed ok : Bool) (s : Client) :
    Option Client :=
  match s.current_screen with
  | GameScreen.MAIN_MENU =>
    if draw_button mouse_pressed over_connect then send_connect_request ok s else some s
  | GameScreen.IN_GAME =>
    if ¬ s.connected then some s
    else if ¬ s.game_state.game_started then some s
    else
      (if draw_button mouse_pressed over_disconnect then disconnect_button ok s
        else some s).bind
        (turn_input mousePoint mouse_pressed space_pressed ok)

/-- The input pass of one frame of `main`: `frame` with the pointer over
neither button. -/
def input_pass (mousePoint : Vector2 ℚ) (mouse_pressed space_pressed ok : Bool) (s : Client) :
    Option Client :=
  frame mousePoint mouse_pressed false false space_pressed ok s

/-! ## Concrete inputs -/

/-- A snapshot whose board holds one red tile, at `[0][0]`. -/
def redCorner : GameState :=
  { GameState.zero with
    board := fun y x => if y = 0 ∧ x = 0 then Tile.T_RED else Tile.EMPTY }

/-- A snapshot whose board holds two red tiles, at `[0][0]` and `[0][1]`. -/
def twoRed : GameState :=
  { GameState.zero with
    board := fun y x => if y = 0 ∧ (x = 0 ∨ x = 1) then Tile.T_RED else Tile.EMPTY }

/-- A snapshot of a finished match. -/
def finished : GameState :=
  { GameState.zero with
    game_started := true
    game_over := true
    player1_score := 3
    player2_score := 1 }

/-- The client after `redCorner` and then an empty board have been received,
each followed by one frame of `ANIMATION_DURATION`. -/
def afterRedThenEmpty : Client :=
  update_animation ANIMATION_DURATION
    (receive_server_message (some (Datagram.snapshot GameState.zero))
      (update_animation ANIMATION_DURATION
        (receive_server_message (some (Datagram.snapshot redCorner)) Client.init)))

/-- The client right after `twoRed` arrived as its first snapshot. -/
def twoDropping : Client :=
  receive_server_message (some (Datagram.snapshot twoRed)) Client.init

/-- A client in a started match, as player 0 on its own turn, nothing selected. -/
def myTurn : Client :=
  { Client.init with
    player_id := 0
    connected := true
    current_screen := GameScreen.IN_GAME
    game_state := { GameState.zero with game_started := true } }

/-- The client `myTurn` with cell (2, 3) selected. -/
def selected23 : Client :=
  { myTurn with selected_tile := ⟨2, 3⟩ }

/-- A snapshot of a started match in which it is player 1's turn. -/
def opponentsTurn : GameState :=
  { GameState.zero with game_started := true, current_turn := 1 }

/-- The range of `size_t`: arithmetic on it is modulo `2 ^ 64`. -/
def SIZE_MODULUS : Nat := 2 ^ 64

/-- The record `ArenaAllocator` without its `data` pointer: a block is named by
its offset from `data`. -/
structure ArenaAllocator where
  capacity : Nat
  size : Nat
  deriving DecidableEq, Repr

/-- The function `MakeArenaAllocator`. -/
def MakeArenaAllocator (capacity : Nat) : ArenaAllocator :=
  { capacity := capacity, size := 0 }

/-- The function `ArenaAlloc`: `none` is the abort of its `assert`; otherwise
the offset of the block handed out (`ptr - arena->data`) and the arena after
`arena->size += size`. -/
def ArenaAlloc (arena : ArenaAllocator) (size : Nat) : Option (Nat × ArenaAllocator) :=
  if (arena.size + size) % SIZE_MODULUS < arena.capacity then
    some (arena.size, { arena with size := (arena.size + size) % SIZE_MODULUS })
  else none

/-- An arena of 4096 bytes, as `main` makes it, with 16 bytes handed out. -/
def smallArena : ArenaAllocator :=
  { capacity := 4096, size := 16 }

/-! ## Loops: general facts -/

/-- A loop over distinct indices whose body rewrites only its own slot. -/
theorem foldl_pointwise {ι σ β : Type} [DecidableEq ι] (body : ι → σ → σ) (get : σ → ι → β)
    (I : σ → Prop) (g : ι → β → β)
    (h : ∀ i s, I s → I (body i s) ∧
      ∀ j, get (body i s) j = if j = i then g i (get s j) else get s j) :
    ∀ (l : List ι), l.Nodup → ∀ s, I s →
      I (l.foldl (fun s i => body i s) s) ∧
      ∀ j, get (l.foldl (fun s i => body i s) s) j = if j ∈ l then g j (get s j) else get s j := by
  intro l
  induction l with
  | nil => intro _ s hs; exact ⟨hs, fun j => by simp⟩
  | cons i l ih =>
    intro hnd s hs
    have hi : i ∉ l := (List.nodup_cons.mp hnd).1
    obtain ⟨hI, hget⟩ := h i s hs
    obtain ⟨hI', hget'⟩ := ih (List.nodup_cons.mp hnd).2 (body i s) hI
    refine ⟨hI', fun j => ?_⟩
    rw [List.foldl_cons, hget' j, hget j]
    by_cases hj : j = i
    · subst hj; simp [hi]
    · simp [hj]

/-- The board loop visits every cell once: if the body at `[y][x]` keeps `I` and
rewrites only `off[y][x]`, to `g y x` of its old value, then after the loop `I`
holds and every cell holds `g` of its old value. -/
theorem forCells_pointwise {σ : Type} (body : Fin BOARD_SIZE → Fin BOARD_SIZE → σ → σ)
    (off : σ → Grid ℚ) (I : σ → Prop) (g : Fin BOARD_SIZE → Fin BOARD_SIZE → ℚ → ℚ)
    (h : ∀ y x s, I s → I (body y x s) ∧
      ∀ y' x', off (body y x s) y' x' =
        if y' = y ∧ x' = x then g y x (off s y' x') else off s y' x')
    (s : σ) (hs : I s) :
    I (forCells body s) ∧ ∀ y x, off (forCells body s) y x = g y x (off s y x) := by
  have inner : ∀ y s, I s →
      I ((List.finRange BOARD_SIZE).foldl (fun s x => body y x s) s) ∧
      ∀ y', off ((List.finRange BOARD_SIZE).foldl (fun s x => body y x s) s) y' =
        if y' = y then (fun x => g y x (off s y' x)) else off s y' := by
    intro y s hs
    have := foldl_pointwise (fun x s => body y x s) (fun s x => off s y x)
      (fun t => I t ∧ ∀ y', y' ≠ y → off t y' = off s y') (fun x v => g y x v)
      (by
        intro x t ht
        obtain ⟨hI, hoff⟩ := h y x t ht.1
        refine ⟨⟨hI, fun y' hy' => ?_⟩, fun j => ?_⟩
        · funext x'
          rw [hoff y' x', if_neg (fun hc => hy' hc.1), ht.2 y' hy']
        · show off (body y x t) y j = if j = x then g y x (off t y j) else off t y j
          rw [hoff y j]; simp)
      (List.finRange BOARD_SIZE) (List.nodup_finRange _) s ⟨hs, fun _ _ => rfl⟩
    refine ⟨this.1.1, fun y' => ?_⟩
    by_cases hy : y' = y
    · subst hy
      funext x
      simpa using this.2 x
    · rw [if_neg hy]; exact this.1.2 y' hy
  have outer := foldl_pointwise
    (fun y s => (List.finRange BOARD_SIZE).foldl (fun s x => body y x s) s) off I
    (fun y row => fun x => g y x (row x))
    (by
      intro y t ht
      obtain ⟨hI, hoff⟩ := inner y t ht
      refine ⟨hI, fun j => ?_⟩
      rw [hoff j])
    (List.finRange BOARD_SIZE) (List.nodup_finRange _) s hs
  refine ⟨outer.1, fun y x => ?_⟩
  have := outer.2 y
  simp only [List.mem_finRange, if_true] at this
  exact congrFun this x

/-- A property of the state that every iteration keeps holds after the loop. -/
theorem forCells_invariant {σ : Type} (body : Fin BOARD_SIZE → Fin BOARD_SIZE → σ → σ)
    (I : σ → Prop) (h : ∀ y x s, I s → I (body y x s)) (s : σ) (hs : I s) :
    I (forCells body s) := by
  have inner : ∀ (l : List (Fin BOARD_SIZE)) y s, I s →
      I (l.foldl (fun s x => body y x s) s) := by
    intro l y
    induction l with
    | nil => intro s hs; exact hs
    | cons x l ih => intro s hs; exact ih _ (h y x s hs)
  have outer : ∀ (l : List (Fin BOARD_SIZE)) s, I s →
      I (l.foldl (fun s y => (List.finRange BOARD_SIZE).foldl (fun s x => body y x s) s) s) := by
    intro l
    induction l with
    | nil => intro s hs; exact hs
    | cons y l ih => intro s hs; exact ih _ (inner _ y s hs)
  exact outer _ s hs


@[simp] theorem setCell_apply {α : Type} (a : Grid α) (y x : Fin BOARD_SIZE) (v : α)
    (y' x' : Fin BOARD_SIZE) :
    setCell a y x v y' x' = if y' = y ∧ x' = x then v else a y' x' := rfl

/-- The first loop of the snapshot branch in closed form. -/
theorem flag_new_tiles_eq (new_state : GameState) (s : Client) :
    flag_new_tiles new_state s =
      { s with tile_offsets := fun y x =>
          if s.previous_board.board y x = Tile.EMPTY ∧ new_state.board y x ≠ Tile.EMPTY then
            -TILE_SIZE
          else s.tile_offsets y x } := by
  obtain ⟨⟨o, ho⟩, hoff⟩ := forCells_pointwise (flag_new_tiles_cell new_state)
    Client.tile_offsets
    (fun t => ∃ o, t = { s with tile_offsets := o })
    (fun y x v =>
      if s.previous_board.board y x = Tile.EMPTY ∧ new_state.board y x ≠ Tile.EMPTY then
        -TILE_SIZE
      else v)
    (by
      rintro y x t ⟨o, rfl⟩
      constructor
      · unfold flag_new_tiles_cell
        split_ifs
        · exact ⟨_, rfl⟩
        · exact ⟨_, rfl⟩
      · intro y' x'
        simp only [flag_new_tiles_cell]
        split_ifs <;> simp_all)
    s ⟨_, rfl⟩
  have ho' : o = fun y x =>
      if s.previous_board.board y x = Tile.EMPTY ∧ new_state.board y x ≠ Tile.EMPTY then
        -TILE_SIZE
      else s.tile_offsets y x := by
    funext y x
    have := hoff y x
    rw [ho] at this
    exact this
  unfold flag_new_tiles
  rw [ho, ho']

/-- The function `start_animation` in closed form. -/
theorem start_animation_eq (s : Client) :
    start_animation s =
      { s with
        animating := true
        animation_timer := 0
        tile_offsets := fun i j =>
          if s.game_state.board i j ≠ Tile.EMPTY then -TILE_SIZE * ((i.val : ℚ) + 1)
          else s.tile_offsets i j } := by
  obtain ⟨⟨o, ho⟩, hoff⟩ := forCells_pointwise start_animation_cell
    Client.tile_offsets
    (fun t => ∃ o, t = { s with animating := true, animation_timer := 0, tile_offsets := o })
    (fun i j v =>
      if s.game_state.board i j ≠ Tile.EMPTY then -TILE_SIZE * ((i.val : ℚ) + 1) else v)
    (by
      rintro y x t ⟨o, rfl⟩
      constructor
      · unfold start_animation_cell
        split_ifs
        · exact ⟨_, rfl⟩
        · exact ⟨_, rfl⟩
      · intro y' x'
        simp only [start_animation_cell]
        split_ifs <;> simp_all)
    { s with animating := true, animation_timer := 0 } ⟨_, rfl⟩
  have ho' : o = fun i j =>
      if s.game_state.board i j ≠ Tile.EMPTY then -TILE_SIZE * ((i.val : ℚ) + 1)
      else s.tile_offsets i j := by
    funext y x
    have := hoff y x
    rw [ho] at this
    exact this
  unfold start_animation
  rw [ho, ho']

/-- The snapshot branch of `receive_server_message` in closed form: the report
of the end of the match is absent from it. -/
theorem receive_snapshot_eq (new_state : GameState) (s : Client) :
    receive_server_message (some (Datagram.snapshot new_state)) s =
      { s with
        previous_board := s.game_state
        game_state := new_state
        animating := true
        animation_timer := 0
        tile_offsets := snapshot_offsets new_state s } := by
  unfold receive_server_message
  dsimp only
  rw [flag_new_tiles_eq, start_animation_eq]
  dsimp only
  split_ifs with h
  · cases hg : new_state.game_over <;> simp [hg] at h
  · rfl

/-! ## Snapshot receipt -/

/-- C2 at its failing input: `afterRedThenEmpty` displays an all-Empty board
and still holds `redCorner` as `previous_board`; when `redCorner` arrives, cell
`[0][0]` goes from Empty (displayed) to red, and its offset is 0 on return. -/
theorem receive_diffs_against_stale_previous_board :
    afterRedThenEmpty.game_state.board 0 0 = Tile.EMPTY ∧
    afterRedThenEmpty.previous_board.board 0 0 = Tile.T_RED ∧
    redCorner.board 0 0 ≠ Tile.EMPTY ∧
    (receive_server_message (some (Datagram.snapshot redCorner)) afterRedThenEmpty).tile_offsets
      0 0 = 0 := by
  decide!

/-- C3: after a snapshot is received, `previous_board` is the old `game_state`
and `game_state` is the snapshot, as whole records. -/
theorem receive_snapshot_replaces_pair (new_state : GameState) (s : Client) :
    (receive_server_message (some (Datagram.snapshot new_state)) s).previous_board =
        s.game_state ∧
    (receive_server_message (some (Datagram.snapshot new_state)) s).game_state = new_state := by
  rw [receive_snapshot_eq]
  exact ⟨rfl, rfl⟩

/-- No snapshot makes `receive_server_message` print anything: the test for the
end of the match reads `game_state` after the snapshot was copied into it. -/
theorem receive_snapshot_stdout (new_state : GameState) (s : Client) :
    (receive_server_message (some (Datagram.snapshot new_state)) s).stdout = s.stdout := by
  rw [receive_snapshot_eq]

/-- C4 at its failing input: `myTurn` displays a match that is not over, the
snapshot `finished` says it is over, and nothing is printed. -/
theorem receive_game_over_not_reported :
    myTurn.game_state.game_over = false ∧
    finished.game_over = true ∧
    (receive_server_message (some (Datagram.snapshot finished)) myTurn).stdout = [] := by
  refine ⟨rfl, rfl, ?_⟩
  rw [receive_snapshot_stdout]
  rfl

/-! ## Animation -/

/-- The swap part of `update_animation` leaves the drop-in state alone. -/
theorem update_swap_drop_in (delta_time : ℚ) (s : Client) :
    (update_swap delta_time s).tile_offsets = s.tile_offsets ∧
    (update_swap delta_time s).animation_timer = s.animation_timer := by
  simp only [update_swap]
  split_ifs <;> exact ⟨rfl, rfl⟩

/-- With the timer at 0, one pass of the loop of `update_animation` with
`delta_time = 0` puts every moving cell at `-TILE_SIZE` and keeps the timer. -/
theorem update_animation_loop_zero (c : Client × Bool) (h : c.1.animation_timer = 0) :
    (forCells (update_animation_cell 0) c).1.animation_timer = 0 ∧
    ∀ y x, (forCells (update_animation_cell 0) c).1.tile_offsets y x =
      if c.1.tile_offsets y x ≠ 0 then -TILE_SIZE else c.1.tile_offsets y x := by
  refine forCells_pointwise (update_animation_cell 0) (fun c => c.1.tile_offsets)
    (fun c => c.1.animation_timer = 0) (fun _ _ v => if v ≠ 0 then -TILE_SIZE else v) ?_ c h
  intro y x c hc
  unfold update_animation_cell
  by_cases hz : c.1.tile_offsets y x = 0
  · rw [if_neg (not_not.mpr hz)]
    refine ⟨hc, fun y' x' => ?_⟩
    split_ifs with h1 <;> simp_all
  · rw [if_pos hz]
    norm_num [hc, ANIMATION_DURATION, TILE_SIZE]
    intro y' x'
    split_ifs with h1 <;> simp_all

/-- With the timer at 0, one pass of the loop of `update_animation` with
`delta_time = ANIMATION_DURATION` puts every cell at rest and resets the timer. -/
theorem update_animation_loop_full (c : Client × Bool) (h : c.1.animation_timer = 0) :
    (forCells (update_animation_cell ANIMATION_DURATION) c).1.animation_timer = 0 ∧
    ∀ y x, (forCells (update_animation_cell ANIMATION_DURATION) c).1.tile_offsets y x = 0 := by
  have := forCells_pointwise (update_animation_cell ANIMATION_DURATION)
    (fun c => c.1.tile_offsets)
    (fun c => c.1.animation_timer = 0) (fun _ _ _ => 0) ?_ c h
  · exact this
  intro y x c hc
  unfold update_animation_cell
  by_cases hz : c.1.tile_offsets y x = 0
  · rw [if_neg (not_not.mpr hz)]
    refine ⟨hc, fun y' x' => ?_⟩
    split_ifs with h1 <;> simp_all
  · rw [if_pos hz]
    norm_num [hc, ANIMATION_DURATION]
    intro y' x'
    split_ifs with h1 <;> simp_all

/-- C5: from a state with `animation_timer = 0`, `update_animation(0)` puts
every cell with a non-zero offset at exactly `-TILE_SIZE`, and
`update_animation(ANIMATION_DURATION)` puts it at exactly 0 and leaves the
timer at 0; a cell whose offset is 0 stays at 0 under both. -/
theorem update_animation_end_points (s : Client) (h : s.animation_timer = 0) :
    (∀ y x, s.tile_offsets y x ≠ 0 → (update_animation 0 s).tile_offsets y x = -TILE_SIZE) ∧
    (∀ y x, s.tile_offsets y x ≠ 0 →
      (update_animation ANIMATION_DURATION s).tile_offsets y x = 0) ∧
    (update_animation ANIMATION_DURATION s).animation_timer = 0 ∧
    (∀ y x, s.tile_offsets y x = 0 →
      (update_animation 0 s).tile_offsets y x = 0 ∧
      (update_animation ANIMATION_DURATION s).tile_offsets y x = 0) := by
  have h0 := update_animation_loop_zero (s, false) h
  have h1 := update_animation_loop_full (s, false) h
  unfold update_animation
  simp only [(update_swap_drop_in _ _).1, (update_swap_drop_in _ _).2]
  refine ⟨fun y x hne => ?_, fun y x _ => h1.2 y x, h1.1, fun y x hz => ⟨?_, h1.2 y x⟩⟩
  · have := h0.2 y x
    rw [if_pos hne] at this
    exact this
  · have := h0.2 y x
    rw [if_neg (by simpa using hz)] at this
    rw [this]; exact hz

/-- C5 at a concrete input: `twoDropping` has its timer at 0 and cell `[0][1]`
has just been triggered. -/
theorem update_animation_end_points_witness :
    twoDropping.animation_timer = 0 ∧
    twoDropping.tile_offsets 0 1 ≠ 0 ∧
    (update_animation 0 twoDropping).tile_offsets 0 1 = -TILE_SIZE ∧
    (update_animation ANIMATION_DURATION twoDropping).tile_offsets 0 1 = 0 ∧
    (update_animation ANIMATION_DURATION twoDropping).animation_timer = 0 :=
  have h := update_animation_end_points twoDropping (by decide!)
  ⟨by decide!, by decide!, h.1 0 1 (by decide!), h.2.1 0 1 (by decide!), h.2.2.1⟩

/-- C6 at its failing input: `twoDropping` has two cells dropping in, `[0][0]`
and `[0][1]`.  Two calls of `update_animation(1/50)` take the offset of `[0][1]`
from -60 to -108/5 and then back to -60. -/
theorem update_animation_offset_moves_back :
    (0 : ℚ) ≤ 1 / 50 ∧
    twoDropping.tile_offsets 0 1 = -60 ∧
    (update_animation (1 / 50) twoDropping).tile_offsets 0 1 = -108 / 5 ∧
    (update_animation (1 / 50) (update_animation (1 / 50) twoDropping)).tile_offsets 0 1 = -60 ∧
    (update_animation (1 / 50) (update_animation (1 / 50) twoDropping)).tile_offsets 0 1 <
      (update_animation (1 / 50) twoDropping).tile_offsets 0 1 := by
  decide!

/-! ## Input -/

/-- The value `hover` gives is no cell at all, or a cell of the board. -/
theorem hover_range (mousePoint : Vector2 ℚ) :
    hover mousePoint = Vector2.unset ∨
    (0 ≤ (hover mousePoint).x ∧ (hover mousePoint).x < 8 ∧
      0 ≤ (hover mousePoint).y ∧ (hover mousePoint).y < 8) := by
  simp only [hover]
  split_ifs with h
  · right; simpa using h
  · left; rfl

/-- The test `hover_tile.x != -1` of the click handling holds exactly when
`hover` found a cell. -/
theorem hover_x_ne_iff (mousePoint : Vector2 ℚ) :
    (hover mousePoint).x ≠ -1 ↔ hover mousePoint ≠ Vector2.unset := by
  rcases hover_range mousePoint with h | h
  · rw [h]; simp [Vector2.unset]
  · constructor
    · intro _ hc
      rw [hc] at h
      simp [Vector2.unset] at h
    · intro _; omega

/-- The adjacency test of the click handling is Manhattan distance 1. -/
theorem adjacent_iff (a b c d : Int) :
    ((|a - c| = 1 ∧ b = d) ∨ (|b - d| = 1 ∧ a = c)) ↔ |a - c| + |b - d| = 1 := by
  constructor
  · rintro (⟨h1, h2⟩ | ⟨h1, h2⟩) <;> simp [h1, h2]
  · intro h
    have h1 := abs_nonneg (a - c)
    have h2 := abs_nonneg (b - d)
    rcases (by omega : (|a - c| = 1 ∧ |b - d| = 0) ∨ (|a - c| = 0 ∧ |b - d| = 1)) with h3 | h3
    · exact Or.inl ⟨h3.1, sub_eq_zero.mp (abs_eq_zero.mp h3.2)⟩
    · exact Or.inr ⟨h3.2, sub_eq_zero.mp (abs_eq_zero.mp h3.1)⟩

/-- A button the pointer is not over is not hit. -/
theorem draw_button_not_over (mouse_pressed : Bool) : draw_button mouse_pressed false = false := by
  cases mouse_pressed <;> rfl

/-- In a started match of a connected client, a frame whose pointer is not over
the Disconnect button is `turn_input`. -/
theorem frame_in_match (mousePoint : Vector2 ℚ)
    (mouse_pressed over_connect space_pressed ok : Bool) (s : Client)
    (h_screen : s.current_screen = GameScreen.IN_GAME) (h_conn : s.connected = true)
    (h_started : s.game_state.game_started = true) :
    frame mousePoint mouse_pressed over_connect false space_pressed ok s =
      turn_input mousePoint mouse_pressed space_pressed ok s := by
  unfold frame
  rw [h_screen]
  simp only [h_conn, h_started, draw_button_not_over]
  rfl

/-- While the gate of the click handling is closed, `turn_input` returns, sends
nothing and keeps the selection and the swap record. -/
theorem turn_input_gated (mousePoint : Vector2 ℚ) (mouse_pressed space_pressed ok : Bool)
    (s : Client)
    (h : s.animating_swap = true ∨ s.animating = true ∨
      s.game_state.current_turn ≠ s.player_id) :
    ∃ s', turn_input mousePoint mouse_pressed space_pressed ok s = some s' ∧
      s'.sent = s.sent ∧ s'.selected_tile = s.selected_tile ∧
      s'.swap_from = s.swap_from ∧ s'.swap_to = s.swap_to ∧
      s'.swap_animation_timer = s.swap_animation_timer ∧
      s'.animating_swap = s.animating_swap := by
  have gate : ¬ (s.game_state.current_turn = s.player_id ∧ ¬ s.animating = true ∧
      ¬ s.animating_swap = true) := by
    rintro ⟨h1, h2, h3⟩
    rcases h with h | h | h
    · exact h3 h
    · exact h2 h
    · exact h h1
  unfold turn_input
  by_cases h1 : s.game_state.game_over = true
  · rw [if_pos h1]
    cases space_pressed <;> exact ⟨_, rfl, rfl, rfl, rfl, rfl, rfl, rfl⟩
  · rw [if_neg h1, if_neg gate]
    exact ⟨s, rfl, rfl, rfl, rfl, rfl, rfl, rfl⟩

/-- C8: in a started match of a connected client, on the local player's turn,
with the match running and no animation active, a click that is not on the
Disconnect button does the following, for every selection and every pointer
position, `hov` being the cell `hover` finds under the pointer and `sel` the
selection before the click (none when `sel.x = -1`, the test of the source):
(1) no cell hovered: the selection is cleared; (2) nothing selected: the
selection is `hov`; (3) `hov = sel`: the selection is cleared; (4) `hov` at
Manhattan distance 1 of `sel`: one datagram is appended to what was sent, the
decimal numbers `player_id sel.x sel.y hov.x hov.y` separated by one blank, the
swap record is (`sel`, `hov`, 0, active) and the selection is cleared;
(5) otherwise the selection is `hov`.  Apart from `hover_tile` nothing else
changes; in particular cases 1, 2, 3 and 5 send nothing and keep the swap
record. -/
theorem click_decision_table (mousePoint : Vector2 ℚ) (over_connect space_pressed ok : Bool)
    (s : Client)
    (h_screen : s.current_screen = GameScreen.IN_GAME) (h_conn : s.connected = true)
    (h_started : s.game_state.game_started = true)
    (h_over : s.game_state.game_over = false)
    (h_turn : s.game_state.current_turn = s.player_id)
    (h_anim : s.animating = false) (h_swap : s.animating_swap = false) :
    (hover mousePoint = Vector2.unset →
      frame mousePoint true over_connect false space_pressed ok s =
        some { s with hover_tile := hover mousePoint, selected_tile := Vector2.unset }) ∧
    (hover mousePoint ≠ Vector2.unset → s.selected_tile.x = -1 →
      frame mousePoint true over_connect false space_pressed ok s =
        some { s with hover_tile := hover mousePoint, selected_tile := hover mousePoint }) ∧
    (hover mousePoint ≠ Vector2.unset → s.selected_tile.x ≠ -1 →
      hover mousePoint = s.selected_tile →
      frame mousePoint true over_connect false space_pressed ok s =
        some { s with hover_tile := hover mousePoint, selected_tile := Vector2.unset }) ∧
    (hover mousePoint ≠ Vector2.unset → s.selected_tile.x ≠ -1 →
      |(hover mousePoint).x - s.selected_tile.x| + |(hover mousePoint).y - s.selected_tile.y| = 1 →
      frame mousePoint true over_connect false space_pressed true s =
        some { s with
          hover_tile := hover mousePoint
          sent := s.sent ++
            [toString s.player_id ++ " " ++ toString s.selected_tile.x ++ " " ++
              toString s.selected_tile.y ++ " " ++ toString (hover mousePoint).x ++ " " ++
              toString (hover mousePoint).y]
          animating_swap := true
          swap_animation_timer := 0
          swap_from := s.selected_tile
          swap_to := hover mousePoint
          selected_tile := Vector2.unset }) ∧
    (hover mousePoint ≠ Vector2.unset → s.selected_tile.x ≠ -1 →
      hover mousePoint ≠ s.selected_tile →
      |(hover mousePoint).x - s.selected_tile.x| + |(hover mousePoint).y - s.selected_tile.y| ≠ 1 →
      frame mousePoint true over_connect false space_pressed ok s =
        some { s with hover_tile := hover mousePoint, selected_tile := hover mousePoint }) := by
  have hpass : ∀ ok, frame mousePoint true over_connect false space_pressed ok s =
      click ok { s with hover_tile := hover mousePoint } := by
    intro ok
    rw [frame_in_match mousePoint true over_connect space_pressed ok s h_screen h_conn h_started]
    simp [turn_input, h_over, h_turn, h_anim, h_swap]
  refine ⟨fun h => ?_, fun h hs => ?_, fun h hs he => ?_, fun h hs hm => ?_, fun h hs hne hm => ?_⟩
  · have hx : ¬ (hover mousePoint).x ≠ -1 := fun hc => (hover_x_ne_iff mousePoint).mp hc h
    rw [hpass, click, if_neg hx]
  · have hx := (hover_x_ne_iff mousePoint).mpr h
    rw [hpass, click, if_pos hx, if_pos hs]
  · have hx := (hover_x_ne_iff mousePoint).mpr h
    have hadj : ¬ ((|(hover mousePoint).x - s.selected_tile.x| = 1 ∧
          (hover mousePoint).y = s.selected_tile.y) ∨
        (|(hover mousePoint).y - s.selected_tile.y| = 1 ∧
          (hover mousePoint).x = s.selected_tile.x)) := by
      rw [adjacent_iff, he]; simp
    rw [hpass, click, if_pos hx, if_neg hs, if_neg hadj, if_pos ⟨by rw [he], by rw [he]⟩]
  · have hx := (hover_x_ne_iff mousePoint).mpr h
    have hadj := (adjacent_iff _ _ _ _).mpr hm
    rw [hpass, click, if_pos hx, if_neg hs, if_pos hadj]
    rfl
  · have hx := (hover_x_ne_iff mousePoint).mpr h
    have hadj : ¬ ((|(hover mousePoint).x - s.selected_tile.x| = 1 ∧
          (hover mousePoint).y = s.selected_tile.y) ∨
        (|(hover mousePoint).y - s.selected_tile.y| = 1 ∧
          (hover mousePoint).x = s.selected_tile.x)) := by
      rw [adjacent_iff]; exact hm
    have hsame : ¬ ((hover mousePoint).x = s.selected_tile.x ∧
        (hover mousePoint).y = s.selected_tile.y) := by
      rintro ⟨h1, h2⟩
      apply hne
      cases hh : hover mousePoint
      cases hs' : s.selected_tile
      rw [hh, hs'] at h1 h2
      simp only at h1 h2
      rw [h1, h2]
    rw [hpass, click, if_pos hx, if_neg hs, if_neg hadj, if_neg hsame]

/-- C8 at a concrete input, scenario 3 of the specification: player 0 has
selected (2, 3) and clicks with the pointer over (2, 4); the datagram sent is
`0 2 3 2 4`. -/
theorem click_decision_table_witness :
    hover ⟨250, 350⟩ = ⟨2, 4⟩ ∧
    frame ⟨250, 350⟩ true false false false true selected23 =
      some { selected23 with
        hover_tile := ⟨2, 4⟩
        sent := ["0 2 3 2 4"]
        animating_swap := true
        swap_animation_timer := 0
        swap_from := ⟨2, 3⟩
        swap_to := ⟨2, 4⟩
        selected_tile := Vector2.unset } := by
  have hh : hover ⟨250, 350⟩ = ⟨2, 4⟩ := by decide!
  refine ⟨hh, ?_⟩
  rw [(click_decision_table ⟨250, 350⟩ false false true selected23 rfl rfl rfl rfl rfl rfl
    rfl).2.2.2.1 (by decide!) (by decide) (by decide!), hh]
  rfl

/-- C7: while `animating_swap` is set, or `animating` is set, or it is not the
local player's turn, the input pass of a frame with the mouse button pressed
returns, sends nothing, and leaves `selected_tile`, `swap_from`, `swap_to`,
`swap_animation_timer` and `animating_swap` as they were, wherever the pointer is. -/
theorem input_pass_gated (mousePoint : Vector2 ℚ) (space_pressed ok : Bool) (s : Client)
    (h : s.animating_swap = true ∨ s.animating = true ∨
      s.game_state.current_turn ≠ s.player_id) :
    ∃ s', input_pass mousePoint true space_pressed ok s = some s' ∧
      s'.sent = s.sent ∧ s'.selected_tile = s.selected_tile ∧
      s'.swap_from = s.swap_from ∧ s'.swap_to = s.swap_to ∧
      s'.swap_animation_timer = s.swap_animation_timer ∧
      s'.animating_swap = s.animating_swap := by
  unfold input_pass
  cases h_screen : s.current_screen
  · refine ⟨s, ?_, rfl, rfl, rfl, rfl, rfl, rfl⟩
    unfold frame
    rw [h_screen]
    simp only [draw_button_not_over]
    rfl
  · by_cases h_conn : s.connected = true
    · by_cases h_started : s.game_state.game_started = true
      · rw [frame_in_match mousePoint true false space_pressed ok s h_screen h_conn h_started]
        exact turn_input_gated mousePoint true space_pressed ok s h
      · refine ⟨s, ?_, rfl, rfl, rfl, rfl, rfl, rfl⟩
        unfold frame
        rw [h_screen]
        simp [h_conn, h_started]
    · refine ⟨s, ?_, rfl, rfl, rfl, rfl, rfl, rfl⟩
      unfold frame
      rw [h_screen]
      simp [h_conn]

/-- C7 at a concrete input: a swap is active, the pointer is over cell
(2, 3) with the button pressed, and the adjacent cell (2, 4) is selected. -/
theorem input_pass_gated_witness :
    ∃ s', input_pass ⟨250, 310⟩ true false true
        { myTurn with animating_swap := true, selected_tile := ⟨2, 4⟩ } = some s' ∧
      s'.sent = [] ∧ s'.selected_tile = ⟨2, 4⟩ ∧
      s'.swap_from = Vector2.unset ∧ s'.swap_to = Vector2.unset ∧
      s'.swap_animation_timer = 0 ∧ s'.animating_swap = true :=
  input_pass_gated ⟨250, 310⟩ false true
    { myTurn with animating_swap := true, selected_tile := ⟨2, 4⟩ } (Or.inl rfl)

/-- C9 at its failing input: the pointer at (70, 70) is outside the board
rectangle, left of and above its corner (100, 100), and `hover` gives cell (0, 0). -/
theorem hover_outside_board_hits_corner :
    ¬ ((100 : ℚ) ≤ 70) ∧ hover ⟨70, 70⟩ = ⟨0, 0⟩ := by
  decide!

/-! ## Disconnect -/

/-- C10: the Disconnect button, when its `sendto` succeeds, leaves
`player_id = -1`, `connected = false`, the main menu and an all-zero
`game_state`, from every state and with no datagram read; when `sendto` fails
the process exits. -/
theorem disconnect_button_teardown (s : Client) :
    (∃ s', disconnect_button true s = some s' ∧
      s'.player_id = -1 ∧ s'.connected = false ∧
      s'.current_screen = GameScreen.MAIN_MENU ∧ s'.game_state = GameState.zero) ∧
    disconnect_button false s = none :=
  ⟨⟨_, rfl, rfl, rfl, rfl, rfl⟩, rfl⟩

/-! ## After a disconnect -/

/-- C13, as the claim states it, fails: `selected23` has cell (2, 3) selected
while the displayed turn is 0.  After the Disconnect button the selection is
still (2, 3), and after a snapshot whose turn is 1 it is still (2, 3). -/
theorem selection_survives_disconnect_and_turn_change :
    selected23.selected_tile = ⟨2, 3⟩ ∧
    (disconnect_button true selected23).map Client.selected_tile = some ⟨2, 3⟩ ∧
    selected23.game_state.current_turn ≠ opponentsTurn.current_turn ∧
    (receive_server_message (some (Datagram.snapshot opponentsTurn)) selected23).selected_tile =
      ⟨2, 3⟩ := by
  refine ⟨rfl, rfl, by decide, ?_⟩
  rw [receive_snapshot_eq]
  rfl

/-- The swap part of `update_animation` never touches `selected_tile`. -/
theorem update_swap_selected_tile (delta_time : ℚ) (s : Client) :
    (update_swap delta_time s).selected_tile = s.selected_tile := by
  simp only [update_swap]
  split_ifs <;> rfl

/-- The function `update_animation` never touches `selected_tile`. -/
theorem update_animation_selected_tile (delta_time : ℚ) (s : Client) :
    (update_animation delta_time s).selected_tile = s.selected_tile := by
  have hloop : (forCells (update_animation_cell delta_time) (s, false)).1.selected_tile =
      s.selected_tile :=
    forCells_invariant (update_animation_cell delta_time)
      (fun c => c.1.selected_tile = s.selected_tile)
      (by
        intro y x c hc
        simp only [update_animation_cell]
        split_ifs <;> exact hc)
      (s, false) rfl
  unfold update_animation
  dsimp only
  generalize forCells (update_animation_cell delta_time) (s, false) = c at hloop ⊢
  rw [update_swap_selected_tile]
  exact hloop

/-- The function `receive_server_message` never touches `selected_tile`,
whatever it receives. -/
theorem receive_selected_tile (recv : Option Datagram) (s : Client) :
    (receive_server_message recv s).selected_tile = s.selected_tile := by
  rcases recv with _ | ⟨_ | n⟩ | new_state
  · rfl
  · rfl
  · rfl
  · rw [receive_snapshot_eq]

/-- When `turn_input` changes the selection, the mouse button is pressed and
the gate of the click handling is open. -/
theorem turn_input_selected_tile (mousePoint : Vector2 ℚ)
    (mouse_pressed space_pressed ok : Bool) (s s' : Client)
    (h : turn_input mousePoint mouse_pressed space_pressed ok s = some s')
    (hne : s'.selected_tile ≠ s.selected_tile) :
    mouse_pressed = true ∧ s.game_state.game_over = false ∧
      s.game_state.current_turn = s.player_id ∧ s.animating = false ∧
      s.animating_swap = false := by
  unfold turn_input at h
  by_cases h1 : s.game_state.game_over = true
  · rw [if_pos h1] at h
    exfalso
    apply hne
    cases space_pressed <;> simp at h <;> rw [← h] ; rfl
  · by_cases gate : s.game_state.current_turn = s.player_id ∧ ¬ s.animating = true ∧
        ¬ s.animating_swap = true
    · cases mouse_pressed
      · rw [if_neg h1, if_pos gate] at h
        exfalso
        apply hne
        simp at h
        rw [← h]
      · exact ⟨rfl, by simpa using h1, gate.1, by simpa using gate.2.1, by simpa using gate.2.2⟩
    · rw [if_neg h1, if_neg gate] at h
      exfalso
      apply hne
      simp at h
      rw [h]

/-- C13, amended: the selection is not reset on disconnect or on turn change.
The disconnect action, `receive_server_message` on whatever arrives (a snapshot
with any `current_turn`, a `PLAYER_ID:` message, or nothing), `update_animation`
and `reset_game_state` all leave `selected_tile` as it was; a frame changes it
only when the mouse button is pressed, off the Disconnect button, in a started
match of a connected client, with the gate of the click handling open (match
not over, local player's turn, no animation). -/
theorem selection_kept_by_disconnect_and_receive (s : Client) :
    (∃ s', disconnect_button true s = some s' ∧ s'.selected_tile = s.selected_tile) ∧
    (∀ recv, (receive_server_message recv s).selected_tile = s.selected_tile) ∧
    (∀ delta_time, (update_animation delta_time s).selected_tile = s.selected_tile) ∧
    (reset_game_state s).selected_tile = s.selected_tile ∧
    (∀ mousePoint mouse_pressed over_connect over_disconnect space_pressed ok s',
      frame mousePoint mouse_pressed over_connect over_disconnect space_pressed ok s = some s' →
      s'.selected_tile ≠ s.selected_tile →
      mouse_pressed = true ∧ over_disconnect = false ∧
        s.current_screen = GameScreen.IN_GAME ∧ s.connected = true ∧
        s.game_state.game_started = true ∧ s.game_state.game_over = false ∧
        s.game_state.current_turn = s.player_id ∧ s.animating = false ∧
        s.animating_swap = false) := by
  refine ⟨⟨_, rfl, rfl⟩, fun recv => receive_selected_tile recv s,
    fun delta_time => update_animation_selected_tile delta_time s, rfl, ?_⟩
  intro mousePoint mouse_pressed over_connect over_disconnect space_pressed ok s' h hne
  unfold frame at h
  cases h_screen : s.current_screen
  · rw [h_screen] at h
    exfalso
    apply hne
    cases hb : draw_button mouse_pressed over_connect
    · simp [hb] at h
      rw [h]
    · cases ok
      · simp [hb, send_connect_request, sendto] at h
      · simp [hb, send_connect_request, sendto] at h
        rw [← h]
  · rw [h_screen] at h
    by_cases h_conn : s.connected = true
    · by_cases h_started : s.game_state.game_started = true
      · simp only [h_conn, h_started, not_true_eq_false, if_false] at h
        cases hb : draw_button mouse_pressed over_disconnect
        · simp only [hb, Bool.false_eq_true, if_false, Option.some_bind] at h
          obtain ⟨hp, h2, h3, h4, h5⟩ :=
            turn_input_selected_tile mousePoint mouse_pressed space_pressed ok s s' h hne
          refine ⟨hp, ?_, rfl, h_conn, h_started, h2, h3, h4, h5⟩
          cases over_disconnect
          · rfl
          · rw [hp] at hb
            exact absurd hb (by decide)
        · exfalso
          cases ok
          · simp [hb, disconnect_button, send_disconnect_request, sendto] at h
          · simp only [hb, if_true] at h
            have hd : disconnect_button true s = some (reset_game_state
                { s with
                  sent := s.sent ++ ["DISCONNECT"]
                  connected := false
                  player_id := -1
                  current_screen := GameScreen.MAIN_MENU }) := rfl
            rw [hd, Option.some_bind] at h
            apply hne
            have hsel := fun hc => (turn_input_selected_tile mousePoint mouse_pressed
              space_pressed true _ s' h hc).2.2.1
            by_contra hc
            have := hsel hc
            simp [reset_game_state, GameState.zero] at this
      · exfalso
        apply hne
        simp [h_conn, h_started] at h
        rw [h]
    · exfalso
      apply hne
      simp [h_conn] at h
      rw [h]

/-! ## Memory arena -/

/-- C12 at its failing input: `smallArena` has 4080 bytes left; a request of
`2 ^ 64 - 16` bytes exceeds that, yet `arena->size + size` wraps to 0, the
assertion passes, the block at offset 16 is handed out and `size` becomes 0. -/
theorem ArenaAlloc_wraps_past_capacity :
    smallArena.size ≤ smallArena.capacity ∧
    2 ^ 64 - 16 < SIZE_MODULUS ∧
    smallArena.capacity - smallArena.size < 2 ^ 64 - 16 ∧
    ArenaAlloc smallArena (2 ^ 64 - 16) = some (16, { capacity := 4096, size := 0 }) := by
  decide

/-- When `arena->size + size` does not wrap, a block that `ArenaAlloc` hands
out ends before the capacity, and a request over the remaining capacity aborts. -/
theorem ArenaAlloc_without_wrap (arena : ArenaAllocator) (size : Nat)
    (hw : arena.size + size < SIZE_MODULUS) :
    (arena.capacity - arena.size < size → ArenaAlloc arena size = none) ∧
    (∀ off arena', ArenaAlloc arena size = some (off, arena') →
      off = arena.size ∧ off + size < arena.capacity ∧ arena'.size = arena.size + size) := by
  unfold ArenaAlloc
  rw [Nat.mod_eq_of_lt hw]
  constructor
  · intro h
    rw [if_neg (by omega)]
  · intro off arena' h
    split_ifs at h with hc
    · simp only [Option.some.injEq, Prod.mk.injEq] at h
      obtain ⟨h1, h2⟩ := h
      subst h1 h2
      exact ⟨rfl, hc, rfl⟩

end Bejeweled
